import Mathlib

set_option autoImplicit false

/-! Shallow embedding of src/lib/rawsocketcore.go from Clouded-Sabre/rawsocket:
the RawSocketCore session registry with its DialIP, ListenIP, background
session reaper and Close operations.  External collaborators (GetLocalIP,
findInterfaceByIP, the pcap capture handle and the ARP resolver) are modelled
as oracle fields of an Env record.  Parts of the repository that live outside
src/ (pcapsession.go: pcapSession.dialIP, pcapSession.listenIP,
RawIPConn.getKey) are modelled from the spec and carry a doc comment saying
so. -/

namespace RawSocket

abbrev IP := Nat
abbrev MAC := Nat
abbrev IPProtocol := Nat

/-- A local network interface, identified by its name (net.Interface). -/
structure NetInterface where
  name : String
deriving DecidableEq, Repr

/-- Error kinds surfaced by the registry operations.  Each constructor stands
for one family of Go error values produced or propagated by
rawsocketcore.go. -/
inductive RSErr where
  /-- DialIP: "provided srcIP is not a local IP" (wraps findInterfaceByIP's error). -/
  | notLocalAddress
  /-- ListenIP: "interface not found for IP" (wraps findInterfaceByIP's error). -/
  | interfaceNotFound
  /-- GetLocalIP failed to pick a route for the destination. -/
  | routeLookupFailed
  /-- newPcapSession failed: the capture handle could not be opened. -/
  | sessionCreationFailed
  /-- ARP resolution produced no response within the request timeout. -/
  | arpTimeout
deriving DecidableEq, Repr

/-- Association-list lookup: the registry map and the per-session flow map are
Go maps, embedded as association lists with unique keys. -/
def mapLookup {α β : Type} [DecidableEq α] (m : List (α × β)) (k : α) : Option β :=
  match m with
  | [] => none
  | (k2, v) :: rest => if k2 = k then some v else mapLookup rest k

/-- Association-list store with Go map semantics: an existing entry for the
key is overwritten in place, otherwise the pair is appended. -/
def mapInsert {α β : Type} [DecidableEq α] (k : α) (v : β) (m : List (α × β)) : List (α × β) :=
  match m with
  | [] => [(k, v)]
  | (k2, v2) :: rest => if k2 = k then (k, v) :: rest else (k2, v2) :: mapInsert k v rest

/-- A raw IP connection (RawIPConn).  The id field embeds Go pointer identity:
each constructed connection is a fresh object even when its addresses
coincide with an earlier one. -/
structure RawIPConn where
  id : Nat
  localIP : IP
  /-- none embeds the wildcard remote of listen-created flows. -/
  remoteIP : Option IP
  protocol : IPProtocol
deriving DecidableEq, Repr

/-- Modelled from the spec: RawIPConn.getKey lives in the part of the
repository outside src/.  Per the spec's glossary the flow key is the tuple
(local address, remote address, protocol identifier). -/
def RawIPConn.getKey (c : RawIPConn) : IP × Option IP × IPProtocol :=
  (c.localIP, c.remoteIP, c.protocol)

/-- One capture session (pcapSession): owns one capture handle for one
interface and the flow table rawIPConnMap.  closeCount counts how many times
the session's close has been invoked on it. -/
structure PcapSession where
  key : String
  handle : Nat
  rawIPConnMap : List ((IP × Option IP × IPProtocol) × RawIPConn)
  nextConnId : Nat
  closeCount : Nat
deriving DecidableEq, Repr

/-- The oracle environment: the external collaborators consumed by the core.
route embeds GetLocalIP (source address, interface, optional gateway),
ifaceFor embeds findInterfaceByIP, openHandle embeds the capture-handle open
performed inside newPcapSession, sessionGateway is the gateway address the
route collaborator supplies for a destination as seen by the session's dial
(modelled from the spec, pcapsession.go being outside src/), and resolveMAC
is the outcome of an ARP resolution (none embeds a timeout). -/
structure Env where
  route : IP → Except RSErr (IP × NetInterface × Option IP)
  ifaceFor : IP → Except RSErr NetInterface
  openHandle : NetInterface → Except RSErr Nat
  sessionGateway : IP → Option IP
  resolveMAC : IP → Option MAC

/-- newPcapSession: opens the capture handle for the interface; on success the
fresh session starts with an empty flow table. -/
def newPcapSession (env : Env) (iface : NetInterface) : Except RSErr PcapSession :=
  match env.openHandle iface with
  | .error e => .error e
  | .ok h => .ok { key := iface.name, handle := h, rawIPConnMap := [], nextConnId := 0, closeCount := 0 }

/-- The registry state (RawSocketCore).  The three channel flags embed whether
close(stopChan), close(pcapSessionCloseSig) and arpCache.Close() have been
performed. -/
structure CoreState where
  pcapSessionMap : List (String × PcapSession) := []
  isClosed : Bool := false
  stopChanClosed : Bool := false
  closeSigChanClosed : Bool := false
  arpCacheClosed : Bool := false
deriving DecidableEq, Repr

/-- The state NewRawSocketCore returns: empty session map, nothing closed. -/
def newCore : CoreState := {}

/-- Step 1 of DialIP: determine the source IP and its interface.  With no
explicit source the route collaborator (GetLocalIP) is consulted; with an
explicit source, findInterfaceByIP must confirm it is local, its failure
being wrapped into the not-a-local-IP error. -/
def resolveSource (env : Env) (srcIP : Option IP) (dstIP : IP) :
    Except RSErr (IP × NetInterface) :=
  match srcIP with
  | none =>
    match env.route dstIP with
    | .error e => .error e
    | .ok (s, iface, _gatewayIP) => .ok (s, iface)
  | some s =>
    match env.ifaceFor s with
    | .error _ => .error .notLocalAddress
    | .ok iface => .ok (s, iface)

/-- Session acquisition as DialIP and ListenIP perform it sequentially: check
the map under the lock; if absent, construct a session via newPcapSession and
insert it under the interface name (the Go code re-locks for the insert but
performs no re-check). -/
def acquireSession (env : Env) (core : CoreState) (iface : NetInterface) :
    Except RSErr (PcapSession × CoreState) :=
  match mapLookup core.pcapSessionMap iface.name with
  | some ps => .ok (ps, core)
  | none =>
    match newPcapSession env iface with
    | .error e => .error e
    | .ok ps =>
      .ok (ps, { core with pcapSessionMap := mapInsert iface.name ps core.pcapSessionMap })

/-- The next-hop address the session's dial resolves: the gateway when the
route collaborator supplied one for the destination, else the destination
itself.  Modelled from the spec, pcapSession.dialIP being outside src/. -/
def dialNextHop (env : Env) (dstIP : IP) : IP :=
  match env.sessionGateway dstIP with
  | some g => g
  | none => dstIP

/-- Modelled from the spec: pcapSession.dialIP lives in pcapsession.go, which
is outside src/.  Per the spec it determines the next-hop hardware address
(gateway if supplied, else the destination), resolves it via the Resolution
Cache returning a timeout error on failure, and on success constructs a Raw
Flow keyed by (sourceAddress, destinationAddress, protocol) without itself
registering it (the registry's DialIP performs the store). -/
def pcapSessionDialIP (env : Env) (ps : PcapSession) (srcIP dstIP : IP)
    (protocol : IPProtocol) : Except RSErr (RawIPConn × PcapSession) :=
  match env.resolveMAC (dialNextHop env dstIP) with
  | none => .error .arpTimeout
  | some _ =>
    .ok ({ id := ps.nextConnId, localIP := srcIP, remoteIP := some dstIP, protocol },
         { ps with nextConnId := ps.nextConnId + 1 })

/-- Modelled from the spec: pcapSession.listenIP lives outside src/.  Per the
spec it constructs a Raw Flow keyed by (localAddress, wildcard-remote,
protocol) and registers it into the session's own flow table itself. -/
def pcapSessionListenIP (ps : PcapSession) (ip : IP) (protocol : IPProtocol) :
    Except RSErr (RawIPConn × PcapSession) :=
  let conn : RawIPConn := { id := ps.nextConnId, localIP := ip, remoteIP := none, protocol }
  .ok (conn, { ps with nextConnId := ps.nextConnId + 1,
                       rawIPConnMap := mapInsert conn.getKey conn ps.rawIPConnMap })

/-- The observable outcome of one registry call: the returned value, the
registry state after the call, the interface name of the session the call
delegated to (none if it never reached a session), the next-hop address the
session's dial resolved (none if the session dial was never invoked), and how
many registry-level stores into a session's flow table the call performed. -/
structure DialOutcome where
  res : Except RSErr RawIPConn
  core : CoreState
  usedIface : Option String := none
  nextHop : Option IP := none
  registryStores : Nat := 0

/-- RawSocketCore.DialIP, line by line: resolve the source (step 1), look up
or lazily create the session for the interface, delegate to the session's
dial, and on success store the connection into the session's flow table under
conn.getKey() before returning it. -/
def DialIP (env : Env) (core : CoreState) (protocol : IPProtocol)
    (srcIP : Option IP) (dstIP : IP) : DialOutcome :=
  match resolveSource env srcIP dstIP with
  | .error e => { res := .error e, core }
  | .ok (s, iface) =>
    match acquireSession env core iface with
    | .error e => { res := .error e, core }
    | .ok (ps, core1) =>
      match pcapSessionDialIP env ps s dstIP protocol with
      | .error e =>
        { res := .error e, core := core1, usedIface := some iface.name,
          nextHop := some (dialNextHop env dstIP) }
      | .ok (conn, ps1) =>
        let ps2 := { ps1 with rawIPConnMap := mapInsert conn.getKey conn ps1.rawIPConnMap }
        { res := .ok conn,
          core := { core1 with pcapSessionMap := mapInsert iface.name ps2 core1.pcapSessionMap },
          usedIface := some iface.name,
          nextHop := some (dialNextHop env dstIP),
          registryStores := 1 }

/-- RawSocketCore.ListenIP, line by line: find the interface owning the
address (wrapping failure into interface-not-found), look up or lazily create
the session exactly as DialIP does, delegate to the session's listen and
return its connection without any registry-level store into the flow table. -/
def ListenIP (env : Env) (core : CoreState) (ip : IP) (protocol : IPProtocol) :
    DialOutcome :=
  match env.ifaceFor ip with
  | .error _ => { res := .error .interfaceNotFound, core }
  | .ok iface =>
    match acquireSession env core iface with
    | .error e => { res := .error e, core }
    | .ok (ps, core1) =>
      match pcapSessionListenIP ps ip protocol with
      | .error e => { res := .error e, core := core1, usedIface := some iface.name }
      | .ok (conn, ps1) =>
        { res := .ok conn,
          core := { core1 with pcapSessionMap := mapInsert iface.name ps1 core1.pcapSessionMap },
          usedIface := some iface.name }

/-- Events emitted by Close, in the order the Go statements execute. -/
inductive CloseEv where
  /-- core.mu.Lock() before the snapshot loop. -/
  | lockAcquire
  /-- The snapshot of all live sessions, by interface name, taken under the lock. -/
  | snapshot (keys : List String)
  /-- core.mu.Unlock() after the snapshot loop. -/
  | lockRelease
  /-- session.close() on one snapshotted session, outside the lock. -/
  | sessionClose (key : String)
  /-- close(core.stopChan): signals the background reaper to stop. -/
  | stopSignalled
  /-- core.wg.Wait(): the reaper goroutine has finished. -/
  | reaperJoined
  /-- close(core.pcapSessionCloseSig). -/
  | sigChanClosed
  /-- core.arpCache.Close(): the shared Resolution Cache is released. -/
  | arpReleased
deriving DecidableEq, Repr

/-- Closing every snapshotted session in order: each session's closeCount is
bumped and one sessionClose event is emitted per session. -/
def closeSessionsList : List (String × PcapSession) →
    List (String × PcapSession) × List CloseEv
  | [] => ([], [])
  | (k, s) :: rest =>
    let r := closeSessionsList rest
    ((k, { s with closeCount := s.closeCount + 1 }) :: r.1,
     CloseEv.sessionClose k :: r.2)

/-- RawSocketCore.Close with its event trace: returns immediately on an
already-closed core; otherwise sets the flag, snapshots the sessions under
the lock, closes each outside the lock, signals the reaper to stop and waits
for it, closes the close-signal channel and releases the ARP cache last. -/
def closeWithTrace (core : CoreState) : CoreState × List CloseEv :=
  if core.isClosed then (core, [])
  else
    let keys := core.pcapSessionMap.map Prod.fst
    let r := closeSessionsList core.pcapSessionMap
    ({ core with isClosed := true,
                 pcapSessionMap := r.1,
                 stopChanClosed := true,
                 closeSigChanClosed := true,
                 arpCacheClosed := true },
     [CloseEv.lockAcquire, CloseEv.snapshot keys, CloseEv.lockRelease] ++ r.2 ++
     [CloseEv.stopSignalled, CloseEv.reaperJoined, CloseEv.sigChanClosed,
      CloseEv.arpReleased])

/-- RawSocketCore.Close, state part only. -/
def Close (core : CoreState) : CoreState :=
  (closeWithTrace core).1

/-- One caller's local state in the interleaved model of the session-creation
path of DialIP / ListenIP. -/
structure RaceCaller where
  /-- Program counter: 0 = about to lock-check-unlock the map, 1 = about to
  construct a session (newPcapSession opens a capture handle), 2 = about to
  lock-insert-unlock, 3 = done. -/
  pc : Nat := 0
  /-- The session this caller will use, once known. -/
  sess : Option Nat := none
deriving DecidableEq, Repr

/-- Shared state of two concurrent callers creating a session for the same
interface on a cold registry.  slot is the registry map entry for that one
interface; handlesOpened counts capture handles opened by newPcapSession. -/
structure RaceState where
  slot : Option Nat := none
  handlesOpened : Nat := 0
  nextSessionId : Nat := 0
  a : RaceCaller := {}
  b : RaceCaller := {}
deriving DecidableEq, Repr

/-- One atomic step of one caller, mirroring the Go code: the locked check,
the unlocked construction (which opens a capture handle), and the locked
unconditional insert (the Go code performs no re-check before inserting). -/
def raceStepCaller (st : RaceState) (c : RaceCaller) : RaceState × RaceCaller :=
  match c.pc with
  | 0 =>
    match st.slot with
    | some s => (st, { c with pc := 3, sess := some s })
    | none => (st, { c with pc := 1 })
  | 1 =>
    ({ st with handlesOpened := st.handlesOpened + 1,
               nextSessionId := st.nextSessionId + 1 },
     { c with pc := 2, sess := some st.nextSessionId })
  | 2 => ({ st with slot := c.sess }, { c with pc := 3 })
  | _ => (st, c)

/-- Run one step of the scheduled caller (false = caller a, true = caller b). -/
def raceStep (st : RaceState) (who : Bool) : RaceState :=
  if who then
    let r := raceStepCaller st st.b
    { r.1 with b := r.2 }
  else
    let r := raceStepCaller st st.a
    { r.1 with a := r.2 }

/-- Run a schedule of caller steps from the cold initial state. -/
def raceRun (sched : List Bool) : RaceState :=
  sched.foldl raceStep {}

/-- A concrete interface for witness computations. -/
def ifaceEth : NetInterface := ⟨"eth0"⟩

/-- A concrete environment whose route for every destination goes through
gateway 1 from source 10 on eth0, with all resolutions succeeding. -/
def envGw : Env where
  route := fun _ => .ok (10, ifaceEth, some 1)
  ifaceFor := fun s => if s = 10 then .ok ifaceEth else .error .interfaceNotFound
  openHandle := fun _ => .ok 7
  sessionGateway := fun _ => some 1
  resolveMAC := fun _ => some 42

/-- A concrete environment with an on-link route (no gateway) from source 10
on eth0, with all resolutions succeeding. -/
def envNoGw : Env where
  route := fun _ => .ok (10, ifaceEth, none)
  ifaceFor := fun s => if s = 10 then .ok ifaceEth else .error .interfaceNotFound
  openHandle := fun _ => .ok 7
  sessionGateway := fun _ => none
  resolveMAC := fun _ => some 42

/-- A concrete environment in which opening a capture handle always fails. -/
def envOpenFail : Env where
  route := fun _ => .ok (10, ifaceEth, none)
  ifaceFor := fun s => if s = 10 then .ok ifaceEth else .error .interfaceNotFound
  openHandle := fun _ => .error .sessionCreationFailed
  sessionGateway := fun _ => none
  resolveMAC := fun _ => some 42

/-- A concrete environment in which every ARP resolution times out. -/
def envArpFail : Env where
  route := fun _ => .ok (10, ifaceEth, none)
  ifaceFor := fun s => if s = 10 then .ok ifaceEth else .error .interfaceNotFound
  openHandle := fun _ => .ok 7
  sessionGateway := fun _ => none
  resolveMAC := fun _ => none

/-- The session a witness environment's first acquisition constructs. -/
def psFresh : PcapSession :=
  { key := "eth0", handle := 7, rawIPConnMap := [], nextConnId := 0, closeCount := 0 }

/-- A fresh core holding exactly the freshly constructed eth0 session. -/
def coreWithFresh : CoreState := { pcapSessionMap := [("eth0", psFresh)] }

/-- The registry state right after Close on a fresh core. -/
def closedCore : CoreState := Close newCore

/-- A fresh core advanced by one successful dial, so it owns one session. -/
def coreOneSession : CoreState := (DialIP envNoGw newCore 6 none 5).core

/-- The connection a successful session dial constructs from the session's
current counter and the call's addresses and protocol. -/
def dialedConn (ps : PcapSession) (s d : IP) (p : IPProtocol) : RawIPConn :=
  { id := ps.nextConnId, localIP := s, remoteIP := some d, protocol := p }

/-- The session state after a successful dial through DialIP: the counter is
bumped and the new connection is stored under its flow key. -/
def dialedSession (ps : PcapSession) (s d : IP) (p : IPProtocol) : PcapSession :=
  { ps with nextConnId := ps.nextConnId + 1,
            rawIPConnMap := mapInsert (s, some d, p) (dialedConn ps s d p) ps.rawIPConnMap }

/-- The outcome record of a successful DialIP call, given the connection, the
post-acquisition core, the interface and the post-dial session. -/
def dialOutcomeRec (conn : RawIPConn) (core1 : CoreState) (iface : NetInterface)
    (ps2 : PcapSession) (env : Env) (d : IP) : DialOutcome :=
  { res := .ok conn,
    core := { core1 with
              pcapSessionMap := mapInsert iface.name ps2 core1.pcapSessionMap },
    usedIface := some iface.name,
    nextHop := some (dialNextHop env d),
    registryStores := 1 }

/-- Storing under a key and looking that key up yields the stored value. -/
theorem mapLookup_mapInsert_self {α β : Type} [DecidableEq α] (k : α) (v : β)
    (m : List (α × β)) : mapLookup (mapInsert k v m) k = some v := by
  induction m with
  | nil => simp [mapInsert, mapLookup]
  | cons hd tl ih =>
    obtain ⟨k2, v2⟩ := hd
    by_cases h : k2 = k <;> simp [mapInsert, mapLookup, h, ih]

/-- Two successive stores under the same key collapse to the second store. -/
theorem mapInsert_mapInsert_self {α β : Type} [DecidableEq α] (k : α) (v w : β)
    (m : List (α × β)) : mapInsert k v (mapInsert k w m) = mapInsert k v m := by
  induction m with
  | nil => simp [mapInsert]
  | cons hd tl ih =>
    obtain ⟨k2, v2⟩ := hd
    by_cases h : k2 = k <;> simp [mapInsert, h, ih]

/-- Closing the snapshotted sessions emits exactly one sessionClose event per
session, in map order. -/
theorem closeSessionsList_trace (l : List (String × PcapSession)) :
    (closeSessionsList l).2 = l.map (fun kv => CloseEv.sessionClose kv.1) := by
  induction l with
  | nil => rfl
  | cons hd tl ih => simp [closeSessionsList, ih]

/-- C5: Close on the core is idempotent: a second Close after a completed
first call leaves all core state unchanged — the channels are not closed a
second time and no session's close is invoked again. -/
theorem c5_close_idempotent (core : CoreState) : Close (Close core) = Close core := by
  unfold Close closeWithTrace
  by_cases h : core.isClosed <;> simp [h]

/-- C2 counterexample: on a core whose one-shot closed flag is set, DialIP
and ListenIP still succeed — no CoreClosed failure — and DialIP extends the
registry's session map with a new capture session. -/
theorem c2_counterexample :
    closedCore.isClosed = true ∧
    (DialIP envNoGw closedCore 6 none 5).res =
      .ok { id := 0, localIP := 10, remoteIP := some 5, protocol := 6 } ∧
    (DialIP envNoGw closedCore 6 none 5).core.pcapSessionMap.length = 1 ∧
    (ListenIP envNoGw closedCore 10 6).res =
      .ok { id := 0, localIP := 10, remoteIP := none, protocol := 6 } ∧
    (ListenIP envNoGw closedCore 10 6).core.pcapSessionMap.length = 1 :=
  ⟨rfl, rfl, rfl, rfl, rfl⟩

/-- C2 amended: DialIP and ListenIP never consult the closed flag, so a call
made after Close behaves exactly as on an open core — its result and its
effect on the session map are independent of the flag, and new sessions may
still be created. -/
theorem c2_closed_flag_not_consulted (env : Env) (core : CoreState) (b : Bool)
    (p : IPProtocol) (s : Option IP) (d ip : IP) :
    ((DialIP env { core with isClosed := b } p s d).res = (DialIP env core p s d).res ∧
     (DialIP env { core with isClosed := b } p s d).core.pcapSessionMap =
       (DialIP env core p s d).core.pcapSessionMap) ∧
    ((ListenIP env { core with isClosed := b } ip p).res = (ListenIP env core ip p).res ∧
     (ListenIP env { core with isClosed := b } ip p).core.pcapSessionMap =
       (ListenIP env core ip p).core.pcapSessionMap) := by
  have hacq : ∀ iface : NetInterface,
      acquireSession env { core with isClosed := b } iface =
        Except.map (fun pc : PcapSession × CoreState => (pc.1, { pc.2 with isClosed := b }))
          (acquireSession env core iface) := by
    intro iface
    unfold acquireSession
    show (match mapLookup core.pcapSessionMap iface.name with
          | some ps => _
          | none => _) = _
    cases mapLookup core.pcapSessionMap iface.name with
    | some ps => rfl
    | none =>
      cases newPcapSession env iface with
      | error e => rfl
      | ok ps => rfl
  constructor
  · unfold DialIP
    cases resolveSource env s d with
    | error e => exact ⟨rfl, rfl⟩
    | ok pr =>
      obtain ⟨s1, iface⟩ := pr
      dsimp only
      rw [hacq iface]
      cases acquireSession env core iface with
      | error e => exact ⟨rfl, rfl⟩
      | ok pc =>
        obtain ⟨ps, core1⟩ := pc
        dsimp only [Except.map]
        cases pcapSessionDialIP env ps s1 d p with
        | error e => exact ⟨rfl, rfl⟩
        | ok cp =>
          obtain ⟨conn, ps1⟩ := cp
          exact ⟨rfl, rfl⟩
  · unfold ListenIP
    cases env.ifaceFor ip with
    | error e => exact ⟨rfl, rfl⟩
    | ok iface =>
      dsimp only
      rw [hacq iface]
      cases acquireSession env core iface with
      | error e => exact ⟨rfl, rfl⟩
      | ok pc =>
        obtain ⟨ps, core1⟩ := pc
        dsimp only [Except.map]
        cases pcapSessionListenIP ps ip p with
        | error e => exact ⟨rfl, rfl⟩
        | ok cp =>
          obtain ⟨conn, ps1⟩ := cp
          exact ⟨rfl, rfl⟩

/-- C3 counterexample: an interleaving of two cold callers for the same
interface in which both pass the initial map check, so each constructs a
session and opens a capture handle — two handles, not at most one — and the
second insert overwrites the first caller's session, which that caller keeps
using. -/
theorem c3_counterexample :
    (raceRun [false, true, false, false, true, true]).handlesOpened = 2 ∧
    (raceRun [false, true, false, false, true, true]).slot = some 1 ∧
    (raceRun [false, true, false, false, true, true]).a.sess = some 0 ∧
    (raceRun [false, true, false, false, true, true]).b.sess = some 1 := by
  decide

/-- C3 amended: the creating caller inserts unconditionally after re-locking,
with no re-check of the map.  Concurrent cold callers for one interface can
therefore each construct a session and open a capture handle, the later
insert overwriting the earlier session while the earlier caller keeps its
own; only when a session is already present at a caller's initial check is it
reused, as when the callers run sequentially. -/
theorem c3_no_recheck_overwrite :
    ((raceRun [false, true, false, false, true, true]).handlesOpened = 2 ∧
     (raceRun [false, true, false, false, true, true]).slot = some 1 ∧
     (raceRun [false, true, false, false, true, true]).a.sess ≠
       (raceRun [false, true, false, false, true, true]).b.sess) ∧
    ((raceRun [false, false, false, true]).handlesOpened = 1 ∧
     (raceRun [false, false, false, true]).b.sess =
       (raceRun [false, false, false, true]).a.sess) := by
  decide

/-- C6: Close snapshots all live sessions while holding the registry lock,
releases the lock, closes each snapshotted session outside the lock, then
signals the background reaper to stop and waits for it, and releases the
shared Resolution Cache last. -/
theorem c6_close_order (core : CoreState) (h : core.isClosed = false) :
    (closeWithTrace core).2 =
      [CloseEv.lockAcquire, CloseEv.snapshot (core.pcapSessionMap.map Prod.fst),
       CloseEv.lockRelease] ++
      (core.pcapSessionMap.map Prod.fst).map CloseEv.sessionClose ++
      [CloseEv.stopSignalled, CloseEv.reaperJoined, CloseEv.sigChanClosed,
       CloseEv.arpReleased] := by
  unfold closeWithTrace
  rw [h]
  simp [closeSessionsList_trace, List.map_map, Function.comp]

/-- C6 witness: the close trace of a core owning one session, evaluated. -/
theorem c6_close_order_witness :
    coreOneSession.isClosed = false ∧
    (closeWithTrace coreOneSession).2 =
      [CloseEv.lockAcquire, CloseEv.snapshot (coreOneSession.pcapSessionMap.map Prod.fst),
       CloseEv.lockRelease] ++
      (coreOneSession.pcapSessionMap.map Prod.fst).map CloseEv.sessionClose ++
      [CloseEv.stopSignalled, CloseEv.reaperJoined, CloseEv.sigChanClosed,
       CloseEv.arpReleased] :=
  ⟨rfl, c6_close_order coreOneSession rfl⟩

/-- C1: for every registry dial that delegates to a session, the session's
dial resolves the gateway's hardware address as the next hop when the route
collaborator supplied a gateway for the destination, and resolves the
destination's address directly only when no gateway was supplied. -/
theorem c1_dial_next_hop (env : Env) (core : CoreState) (p : IPProtocol) (d s : IP)
    (iface : NetInterface) (gw : Option IP) (ps : PcapSession) (core1 : CoreState)
    (hroute : env.route d = .ok (s, iface, gw))
    (hgw : env.sessionGateway d = gw)
    (hacq : acquireSession env core iface = .ok (ps, core1)) :
    (DialIP env core p none d).nextHop = some (gw.getD d) := by
  have hhop : dialNextHop env d = gw.getD d := by
    unfold dialNextHop
    rw [hgw]
    cases gw <;> rfl
  unfold DialIP resolveSource
  dsimp only
  rw [hroute]
  dsimp only
  rw [hacq]
  dsimp only
  cases pcapSessionDialIP env ps s d p with
  | error e => dsimp only; rw [hhop]
  | ok cp =>
    obtain ⟨conn, ps1⟩ := cp
    dsimp only
    rw [hhop]

/-- C1 witness: with a gateway route the session resolves the gateway (1), and
with an on-link route it resolves the destination (5) directly. -/
theorem c1_dial_next_hop_witness :
    (envGw.route 5 = .ok (10, ifaceEth, some 1) ∧ envGw.sessionGateway 5 = some 1 ∧
     acquireSession envGw newCore ifaceEth = .ok (psFresh, coreWithFresh) ∧
     (DialIP envGw newCore 6 none 5).nextHop = some 1) ∧
    (envNoGw.route 5 = .ok (10, ifaceEth, none) ∧ envNoGw.sessionGateway 5 = none ∧
     acquireSession envNoGw newCore ifaceEth = .ok (psFresh, coreWithFresh) ∧
     (DialIP envNoGw newCore 6 none 5).nextHop = some 5) :=
  ⟨⟨rfl, rfl, rfl, c1_dial_next_hop envGw newCore 6 5 10 ifaceEth (some 1) psFresh
      coreWithFresh rfl rfl rfl⟩,
   ⟨rfl, rfl, rfl, c1_dial_next_hop envNoGw newCore 6 5 10 ifaceEth none psFresh
      coreWithFresh rfl rfl rfl⟩⟩

/-- C4: when the capture handle cannot be opened, DialIP and ListenIP return
the construction error and leave the registry state — in particular the
session map — exactly as it was: the failed session is never inserted. -/
theorem c4_construction_failure (env : Env) (core : CoreState) (p : IPProtocol)
    (s : Option IP) (d ip sIP : IP) (iface iface2 : NetInterface) (e e2 : RSErr)
    (hsrc : resolveSource env s d = .ok (sIP, iface))
    (habs : mapLookup core.pcapSessionMap iface.name = none)
    (hopen : env.openHandle iface = .error e)
    (hif2 : env.ifaceFor ip = .ok iface2)
    (habs2 : mapLookup core.pcapSessionMap iface2.name = none)
    (hopen2 : env.openHandle iface2 = .error e2) :
    (DialIP env core p s d).res = .error e ∧
    (DialIP env core p s d).core = core ∧
    (ListenIP env core ip p).res = .error e2 ∧
    (ListenIP env core ip p).core = core := by
  have hacq : acquireSession env core iface = .error e := by
    unfold acquireSession newPcapSession
    rw [habs]
    dsimp only
    rw [hopen]
  have hacq2 : acquireSession env core iface2 = .error e2 := by
    unfold acquireSession newPcapSession
    rw [habs2]
    dsimp only
    rw [hopen2]
  unfold DialIP ListenIP
  rw [hsrc]
  dsimp only
  rw [hacq, hif2]
  dsimp only
  rw [hacq2]
  exact ⟨rfl, rfl, rfl, rfl⟩

/-- C4 witness: an environment whose handle open always fails leaves a fresh
core untouched and surfaces the construction error from both operations. -/
theorem c4_construction_failure_witness :
    envOpenFail.openHandle ifaceEth = .error .sessionCreationFailed ∧
    (DialIP envOpenFail newCore 6 none 5).res = .error .sessionCreationFailed ∧
    (DialIP envOpenFail newCore 6 none 5).core = newCore ∧
    (ListenIP envOpenFail newCore 10 6).res = .error .sessionCreationFailed ∧
    (ListenIP envOpenFail newCore 10 6).core = newCore := by
  have h := c4_construction_failure envOpenFail newCore 6 none 5 10 10 ifaceEth ifaceEth
    .sessionCreationFailed .sessionCreationFailed rfl rfl rfl rfl rfl rfl
  exact ⟨rfl, h.1, h.2.1, h.2.2.1, h.2.2.2⟩

/-- C9: a dial with an explicit source address not owned by any local
interface fails with the not-a-local-address error kind, changing no registry
state and delegating to no session; moreover a dial with an explicit source
never consults the route resolver — its outcome is unchanged under any
replacement of the route collaborator. -/
theorem c9_not_local_source (env : Env) (core : CoreState) (p : IPProtocol)
    (d sIP : IP) (e : RSErr)
    (hif : env.ifaceFor sIP = .error e) :
    (DialIP env core p (some sIP) d).res = .error .notLocalAddress ∧
    (DialIP env core p (some sIP) d).core = core ∧
    (DialIP env core p (some sIP) d).usedIface = none ∧
    ∀ (r : IP → Except RSErr (IP × NetInterface × Option IP)) (core2 : CoreState)
      (p2 : IPProtocol) (s2 d2 : IP),
      DialIP { env with route := r } core2 p2 (some s2) d2 =
        DialIP env core2 p2 (some s2) d2 := by
  refine ⟨?_, ?_, ?_, ?_⟩
  · unfold DialIP resolveSource
    dsimp only
    rw [hif]
  · unfold DialIP resolveSource
    dsimp only
    rw [hif]
  · unfold DialIP resolveSource
    dsimp only
    rw [hif]
  · intro r core2 p2 s2 d2
    cases env
    rfl

/-- C9 witness: source 99 is not local in the witness environment, so the
dial fails with the not-a-local-address kind and touches nothing. -/
theorem c9_not_local_source_witness :
    envNoGw.ifaceFor 99 = .error .interfaceNotFound ∧
    (DialIP envNoGw newCore 6 (some 99) 5).res = .error .notLocalAddress ∧
    (DialIP envNoGw newCore 6 (some 99) 5).core = newCore ∧
    (DialIP envNoGw newCore 6 (some 99) 5).usedIface = none := by
  have h := c9_not_local_source envNoGw newCore 6 5 99 .interfaceNotFound rfl
  exact ⟨rfl, h.1, h.2.1, h.2.2.1⟩

/-- C7: when the route resolver succeeds for the destination and the call
goes through, a dial without an explicit source yields a flow whose local
address is exactly the source address the resolver returned, and the call
delegates to the session of the interface the resolver returned. -/
theorem c7_route_source_flow (env : Env) (core : CoreState) (p : IPProtocol)
    (d s : IP) (iface : NetInterface) (gw : Option IP) (ps : PcapSession)
    (core1 : CoreState) (m : MAC)
    (hroute : env.route d = .ok (s, iface, gw))
    (hacq : acquireSession env core iface = .ok (ps, core1))
    (hres : env.resolveMAC (dialNextHop env d) = some m) :
    (DialIP env core p none d).res =
      .ok { id := ps.nextConnId, localIP := s, remoteIP := some d, protocol := p } ∧
    (DialIP env core p none d).usedIface = some iface.name := by
  have hdial : pcapSessionDialIP env ps s d p =
      .ok ({ id := ps.nextConnId, localIP := s, remoteIP := some d, protocol := p },
           { ps with nextConnId := ps.nextConnId + 1 }) := by
    unfold pcapSessionDialIP
    rw [hres]
  unfold DialIP resolveSource
  dsimp only
  rw [hroute]
  dsimp only
  rw [hacq]
  dsimp only
  rw [hdial]
  exact ⟨rfl, rfl⟩

/-- C7 witness: in the witness environment the resolver returns source 10 on
eth0, and the dialed flow's local address is 10 on session eth0. -/
theorem c7_route_source_flow_witness :
    envNoGw.route 5 = .ok (10, ifaceEth, none) ∧
    (DialIP envNoGw newCore 6 none 5).res =
      .ok { id := 0, localIP := 10, remoteIP := some 5, protocol := 6 } ∧
    (DialIP envNoGw newCore 6 none 5).usedIface = some "eth0" := by
  have h := c7_route_source_flow envNoGw newCore 6 5 10 ifaceEth none psFresh
    coreWithFresh 42 rfl rfl rfl
  exact ⟨rfl, h.1, h.2⟩

/-- C8: when the session's dial succeeds, DialIP stores the resulting
connection into the owning session's flow table under the connection's own
flow key before returning it; when the session's dial times out, DialIP
returns the error, performs no registry-level store and leaves the registry
exactly in its post-acquisition state. -/
theorem c8_dial_registers_flow (env : Env) (core : CoreState) (p : IPProtocol)
    (srcArg : Option IP) (d s : IP) (iface : NetInterface) (ps : PcapSession)
    (core1 : CoreState)
    (hsrc : resolveSource env srcArg d = .ok (s, iface))
    (hacq : acquireSession env core iface = .ok (ps, core1)) :
    (∀ m : MAC, env.resolveMAC (dialNextHop env d) = some m →
      ∃ conn ps2,
        (DialIP env core p srcArg d).res = .ok conn ∧
        mapLookup (DialIP env core p srcArg d).core.pcapSessionMap iface.name = some ps2 ∧
        mapLookup ps2.rawIPConnMap conn.getKey = some conn) ∧
    (env.resolveMAC (dialNextHop env d) = none →
      (DialIP env core p srcArg d).res = .error .arpTimeout ∧
      (DialIP env core p srcArg d).core = core1 ∧
      (DialIP env core p srcArg d).registryStores = 0) := by
  constructor
  · intro m hm
    have hdial : pcapSessionDialIP env ps s d p =
        .ok (dialedConn ps s d p, { ps with nextConnId := ps.nextConnId + 1 }) := by
      unfold pcapSessionDialIP
      rw [hm]
      rfl
    have h1 : DialIP env core p srcArg d =
        dialOutcomeRec (dialedConn ps s d p) core1 iface (dialedSession ps s d p) env d := by
      unfold DialIP
      rw [hsrc]
      dsimp only
      rw [hacq]
      dsimp only
      rw [hdial]
      rfl
    refine ⟨dialedConn ps s d p, dialedSession ps s d p, ?_, ?_, ?_⟩
    · rw [h1]
      rfl
    · rw [h1]
      exact mapLookup_mapInsert_self _ _ _
    · show mapLookup (dialedSession ps s d p).rawIPConnMap (dialedConn ps s d p).getKey =
        some (dialedConn ps s d p)
      unfold dialedSession
      exact mapLookup_mapInsert_self _ _ _
  · intro hm
    have hdial : pcapSessionDialIP env ps s d p = .error .arpTimeout := by
      unfold pcapSessionDialIP
      rw [hm]
    unfold DialIP
    rw [hsrc]
    dsimp only
    rw [hacq]
    dsimp only
    rw [hdial]
    exact ⟨rfl, rfl, rfl⟩

/-- C8 witness: a successful dial is registered under its flow key; a dial
whose resolution times out returns the timeout error, leaves the registry in
its post-acquisition state and performs no store. -/
theorem c8_dial_registers_flow_witness :
    (∃ conn ps2,
      (DialIP envNoGw newCore 6 none 5).res = .ok conn ∧
      mapLookup (DialIP envNoGw newCore 6 none 5).core.pcapSessionMap ifaceEth.name =
        some ps2 ∧
      mapLookup ps2.rawIPConnMap conn.getKey = some conn) ∧
    ((DialIP envArpFail newCore 6 none 5).res = .error .arpTimeout ∧
     (DialIP envArpFail newCore 6 none 5).core = coreWithFresh ∧
     (DialIP envArpFail newCore 6 none 5).registryStores = 0) :=
  ⟨(c8_dial_registers_flow envNoGw newCore 6 none 5 10 ifaceEth psFresh coreWithFresh
      rfl rfl).1 42 rfl,
   (c8_dial_registers_flow envArpFail newCore 6 none 5 10 ifaceEth psFresh coreWithFresh
      rfl rfl).2 rfl⟩

/-- C10: ListenIP performs no registry-level store into any session's flow
table, whereas a successful DialIP performs exactly one; that store has Go
map semantics, so a repeated dial for the identical (source, destination,
protocol) key yields a distinct new connection whose store replaces the
earlier flow's slot: the flow table afterwards holds the second connection
alone under that key. -/
theorem c10_listen_no_store_dial_overwrites (env : Env) (core : CoreState)
    (p : IPProtocol) (s d : IP) (iface : NetInterface) (ps : PcapSession)
    (core1 : CoreState) (m : MAC)
    (hif : env.ifaceFor s = .ok iface)
    (hacq : acquireSession env core iface = .ok (ps, core1))
    (hres : env.resolveMAC (dialNextHop env d) = some m) :
    (∀ (env2 : Env) (core2 : CoreState) (ip2 : IP) (p2 : IPProtocol),
       (ListenIP env2 core2 ip2 p2).registryStores = 0) ∧
    (DialIP env core p (some s) d).registryStores = 1 ∧
    (∃ c1 c2 ps2,
       (DialIP env core p (some s) d).res = .ok c1 ∧
       (DialIP env (DialIP env core p (some s) d).core p (some s) d).res = .ok c2 ∧
       c1.id ≠ c2.id ∧ c2.getKey = c1.getKey ∧
       mapLookup
         (DialIP env (DialIP env core p (some s) d).core p (some s) d).core.pcapSessionMap
         iface.name = some ps2 ∧
       ps2.rawIPConnMap = mapInsert c1.getKey c2 ps.rawIPConnMap) := by
  have hlisten0 : ∀ (env2 : Env) (core2 : CoreState) (ip2 : IP) (p2 : IPProtocol),
      (ListenIP env2 core2 ip2 p2).registryStores = 0 := by
    intro env2 core2 ip2 p2
    unfold ListenIP
    cases env2.ifaceFor ip2 with
    | error e => rfl
    | ok iface2 =>
      dsimp only
      cases acquireSession env2 core2 iface2 with
      | error e => rfl
      | ok pc =>
        obtain ⟨ps0, core0⟩ := pc
        dsimp only
        cases pcapSessionListenIP ps0 ip2 p2 with
        | error e => rfl
        | ok cp =>
          obtain ⟨conn0, ps0b⟩ := cp
          rfl
  have hsrc : resolveSource env (some s) d = .ok (s, iface) := by
    unfold resolveSource
    dsimp only
    rw [hif]
  have hdial1 : pcapSessionDialIP env ps s d p =
      .ok (dialedConn ps s d p, { ps with nextConnId := ps.nextConnId + 1 }) := by
    unfold pcapSessionDialIP
    rw [hres]
    rfl
  have h1 : DialIP env core p (some s) d =
      dialOutcomeRec (dialedConn ps s d p) core1 iface (dialedSession ps s d p) env d := by
    unfold DialIP
    rw [hsrc]
    dsimp only
    rw [hacq]
    dsimp only
    rw [hdial1]
    rfl
  have hacq2 : acquireSession env
      (dialOutcomeRec (dialedConn ps s d p) core1 iface (dialedSession ps s d p) env d).core
      iface =
      .ok (dialedSession ps s d p,
        (dialOutcomeRec (dialedConn ps s d p) core1 iface (dialedSession ps s d p) env d).core) := by
    unfold acquireSession dialOutcomeRec
    dsimp only
    rw [mapLookup_mapInsert_self]
  have hdial2 : pcapSessionDialIP env (dialedSession ps s d p) s d p =
      .ok (dialedConn (dialedSession ps s d p) s d p,
           { dialedSession ps s d p with
             nextConnId := (dialedSession ps s d p).nextConnId + 1 }) := by
    unfold pcapSessionDialIP
    rw [hres]
    rfl
  have h2 : DialIP env
      (dialOutcomeRec (dialedConn ps s d p) core1 iface (dialedSession ps s d p) env d).core
      p (some s) d =
      dialOutcomeRec (dialedConn (dialedSession ps s d p) s d p)
        (dialOutcomeRec (dialedConn ps s d p) core1 iface (dialedSession ps s d p) env d).core
        iface (dialedSession (dialedSession ps s d p) s d p) env d := by
    unfold DialIP
    rw [hsrc]
    dsimp only
    rw [hacq2]
    dsimp only
    rw [hdial2]
    rfl
  refine ⟨hlisten0, ?_, ?_⟩
  · rw [h1]
    rfl
  · refine ⟨dialedConn ps s d p, dialedConn (dialedSession ps s d p) s d p,
      dialedSession (dialedSession ps s d p) s d p, ?_, ?_, ?_, ?_, ?_, ?_⟩
    · rw [h1]
      rfl
    · rw [h1, h2]
      rfl
    · show (dialedConn ps s d p).id ≠ (dialedConn (dialedSession ps s d p) s d p).id
      unfold dialedConn dialedSession
      dsimp only
      omega
    · rfl
    · rw [h1, h2]
      exact mapLookup_mapInsert_self _ _ _
    · show (dialedSession (dialedSession ps s d p) s d p).rawIPConnMap =
        mapInsert (dialedConn ps s d p).getKey (dialedConn (dialedSession ps s d p) s d p)
          ps.rawIPConnMap
      unfold dialedSession
      dsimp only
      exact mapInsert_mapInsert_self _ _ _ _

/-- C10 witness: a concrete repeated dial for the identical key leaves the
second connection alone in the slot, and a concrete listen performs no
registry-level store. -/
theorem c10_listen_no_store_dial_overwrites_witness :
    (ListenIP envNoGw newCore 10 6).registryStores = 0 ∧
    (DialIP envNoGw newCore 6 (some 10) 5).registryStores = 1 ∧
    (∃ c1 c2 ps2,
       (DialIP envNoGw newCore 6 (some 10) 5).res = .ok c1 ∧
       (DialIP envNoGw (DialIP envNoGw newCore 6 (some 10) 5).core 6 (some 10) 5).res =
         .ok c2 ∧
       c1.id ≠ c2.id ∧ c2.getKey = c1.getKey ∧
       mapLookup
         (DialIP envNoGw (DialIP envNoGw newCore 6 (some 10) 5).core 6
           (some 10) 5).core.pcapSessionMap ifaceEth.name = some ps2 ∧
       ps2.rawIPConnMap = mapInsert c1.getKey c2 psFresh.rawIPConnMap) := by
  have h := c10_listen_no_store_dial_overwrites envNoGw newCore 6 10 5 ifaceEth psFresh
    coreWithFresh 42 rfl rfl rfl
  exact ⟨h.1 envNoGw newCore 10 6, h.2.1, h.2.2⟩

end RawSocket
